import Mathlib

/-!
Shallow embedding of the weather-app backend (`src/app.py`), a Flask service
that validates a city key, checks an API-key credential, calls the
OpenWeatherMap provider, and reshapes the provider JSON into a small response.

Modelling conventions:
* JSON values are the inductive `JVal`; numbers are exact rationals `Rat`
  (the claims only evaluate numerics at inputs where exact decimal rounding
  and Python float rounding agree; Python `round(x, 1)` ties-to-even is
  modelled by `round1`).
* Python string methods `lower` / `capitalize` are modelled character-wise
  (`Char.toLower` / `Char.toUpper`), which agrees with Python on ASCII input.
* The single outbound HTTP call (`requests.get` + `raise_for_status` +
  `response.json()`) is abstracted as an `UpstreamResult` input: a timeout,
  a transport failure, or a response with status code and parsed-or-unparsable
  body. `raise_for_status` raises exactly for 400 ≤ status < 600.
* Python exceptions raised while building the response dict are tracked in
  `Except PyExc`; the handler catches only `KeyError` and `ValueError`
  (`except (KeyError, ValueError)` in the source), so `IndexError`,
  `TypeError` and `AttributeError` escape as `Outcome.unhandled`.
-/

/-- JSON values as produced by `response.json()` and consumed by `jsonify`. -/
inductive JVal where
  | str (s : String)
  | num (q : Rat)
  | arr (l : List JVal)
  | obj (kvs : List (String × JVal))
  deriving Repr

/-- Python exceptions that can arise while indexing into the provider JSON
and building the response dict. -/
inductive PyExc where
  | keyError
  | indexError
  | typeError
  | attributeError
  | valueError
  deriving DecidableEq, Repr

/-- Outcome of one request: an HTTP response (body, status) as produced by
`jsonify(...), status`, or a Python exception that no `except` clause of
`get_weather` catches (Flask would turn it into a generic 500 error page,
not one of the structured bodies). -/
inductive Outcome where
  | resp (body : JVal) (status : Nat)
  | unhandled (e : PyExc)
  deriving Repr

/-- Behaviour of the single outbound `requests.get(...)` call, abstracted as
an input (spec §9 design note: the provider call is a narrow interface that
tests stub). `response s b` is an HTTP response with status code `s`; its
body is `.ok data` when `response.json()` parses, `.error ()` when parsing
raises `ValueError` (`JSONDecodeError`). -/
inductive UpstreamResult where
  | timeout
  | connError
  | response (status : Nat) (body : Except Unit JVal)

/-- `CITIES` dict from `app.py`: lookup key → display name, in source order. -/
def CITIES : List (String × String) :=
  [("newyork", "New York"),
   ("sydney", "Sydney"),
   ("capetown", "Cape Town"),
   ("bangkok", "Bangkok")]

/-- Python `str.lower()` (character-wise; agrees with Python on ASCII). -/
def pyLower (s : String) : String := String.mk (s.data.map Char.toLower)

/-- Python `str.capitalize()`: first character uppercased, every remaining
character lowercased. -/
def pyCapitalize (s : String) : String :=
  match s.data with
  | [] => ""
  | c :: cs => String.mk (c.toUpper :: cs.map Char.toLower)

/-- `if not API_KEY:` — true when `os.getenv` returned `None` or the
configured value is the empty string (both falsy in Python). -/
def keyMissing : Option String → Bool
  | none => true
  | some s => s.isEmpty

/-- A single-quote character, for Python `repr` of strings. -/
def squote : String := String.singleton (Char.ofNat 39)

/-- Python `f"...{list(CITIES.keys())}"` rendering of a list of strings. -/
def pyListRepr (l : List String) : String :=
  "[" ++ String.intercalate ", " (l.map (fun s => squote ++ s ++ squote)) ++ "]"

/-- Round-half-to-even to an integer, on exact rationals. -/
def rhe (x : Rat) : Int :=
  if x - Int.floor x < 1/2 then Int.floor x
  else if 1/2 < x - Int.floor x then Int.floor x + 1
  else if Int.floor x % 2 = 0 then Int.floor x else Int.floor x + 1

/-- Python `round(x, 1)`: nearest multiple of 1/10, ties to even. -/
def round1 (x : Rat) : Rat := (rhe (x * 10) : Int) / 10

/-- Subscripting a JSON value with a string key, Python semantics:
dict lookup (`KeyError` when absent), `TypeError` on any non-dict. -/
def JVal.getKey : JVal → String → Except PyExc JVal
  | .obj kvs, k =>
    match kvs.lookup k with
    | some v => .ok v
    | none => .error .keyError
  | _, _ => .error .typeError

/-- Subscripting a JSON value with an integer index, Python semantics:
list indexing (`IndexError` out of range), `KeyError` for a dict without
that key, one-character string for a string, `TypeError` otherwise. -/
def JVal.getIdx : JVal → Nat → Except PyExc JVal
  | .arr l, i =>
    match l.get? i with
    | some v => .ok v
    | none => .error .indexError
  | .str s, i =>
    match s.data.get? i with
    | some c => .ok (.str (String.mk [c]))
    | none => .error .indexError
  | .obj _, _ => .error .keyError
  | _, _ => .error .typeError

/-- Coerce to a number for Python `round(·, 1)`; `TypeError` otherwise. -/
def JVal.asNum : JVal → Except PyExc Rat
  | .num q => .ok q
  | _ => .error .typeError

/-- Coerce to a string for the `.capitalize()` attribute access;
`AttributeError` on any non-string. -/
def JVal.asStr : JVal → Except PyExc String
  | .str s => .ok s
  | _ => .error .attributeError

/-- The `weather_data` dict literal of `get_weather`, with the entries
evaluated in source order (`city`, `temperature`, `description`,
`humidity`, `wind_speed`); the first Python exception raised wins. -/
def build_weather_data (city_name : String) (data : JVal) : Except PyExc JVal := do
  let temp ← (← data.getKey "main").getKey "temp"
  let t ← temp.asNum
  let desc ← (← (← data.getKey "weather").getIdx 0).getKey "description"
  let d ← desc.asStr
  let hum ← (← data.getKey "main").getKey "humidity"
  let wind ← (← data.getKey "wind").getKey "speed"
  let w ← wind.asNum
  .ok (.obj [("city", .str city_name),
             ("temperature", .num (round1 t)),
             ("description", .str (pyCapitalize d)),
             ("humidity", hum),
             ("wind_speed", .num (round1 w))])

/-- `except (KeyError, ValueError)` — the only exceptions the data-shaping
code catches and maps to the Data Error response. -/
def caughtByHandler : PyExc → Bool
  | .keyError => true
  | .valueError => true
  | _ => false

/-- Body of the 400 "Invalid city" response. -/
def invalidCityBody (city : String) (cities : List (String × String)) : JVal :=
  .obj [("error", .str "Invalid city"),
        ("message", .str ("City \"" ++ city ++ "\" not supported. Available cities: "
          ++ pyListRepr (cities.map Prod.fst)))]

/-- Body of the 500 "Configuration error" response. -/
def configErrorBody : JVal :=
  .obj [("error", .str "Configuration error"),
        ("message", .str "OpenWeatherMap API key not configured")]

/-- Body of the 504 "Timeout" response. -/
def timeoutBody : JVal :=
  .obj [("error", .str "Timeout"),
        ("message", .str "Request to OpenWeatherMap API timed out")]

/-- Body of the 502 "API Error" response (`requests.exceptions.HTTPError`). -/
def apiErrorBody (status : Nat) : JVal :=
  .obj [("error", .str "API Error"),
        ("message", .str ("OpenWeatherMap API returned an error: " ++ toString status))]

/-- Body of the 502 "Network Error" response. -/
def networkErrorBody : JVal :=
  .obj [("error", .str "Network Error"),
        ("message", .str "Failed to connect to OpenWeatherMap API")]

/-- Body of the 502 "Data Error" response. -/
def dataErrorBody : JVal :=
  .obj [("error", .str "Data Error"),
        ("message", .str "Unexpected response format from OpenWeatherMap API")]

/-- The `/weather/<city>` handler, parameterized by the city registry and
the credential it reads from process-wide state, and by the behaviour of
the single outbound call. Mirrors `get_weather` in `app.py` line by line:
validate city, check API key, call provider, shape the response,
classify failures. -/
def get_weather_with (cities : List (String × String)) (apiKey : Option String)
    (up : UpstreamResult) (city : String) : Outcome :=
  let city_lower := pyLower city
  match cities.lookup city_lower with
  | none => .resp (invalidCityBody city cities) 400
  | some city_name =>
    if keyMissing apiKey then
      .resp configErrorBody 500
    else
      match up with
      | .timeout => .resp timeoutBody 504
      | .connError => .resp networkErrorBody 502
      | .response status body =>
        if 400 ≤ status ∧ status < 600 then
          .resp (apiErrorBody status) 502
        else
          match body with
          | .error _ => .resp dataErrorBody 502
          | .ok data =>
            match build_weather_data city_name data with
            | .ok weather_data => .resp weather_data 200
            | .error e =>
              if caughtByHandler e then .resp dataErrorBody 502
              else .unhandled e

/-- `get_weather` with the process-wide `CITIES` registry. -/
def get_weather (apiKey : Option String) (up : UpstreamResult) (city : String) :
    Outcome :=
  get_weather_with CITIES apiKey up city

/-- The `/` health-check handler (`home` in `app.py`): a fixed descriptor,
reading no credential and performing no outbound call. -/
def home : JVal × Nat :=
  (.obj [("status", .str "running"),
         ("service", .str "Weather Backend API"),
         ("available_cities", .arr ((CITIES.map Prod.fst).map JVal.str))], 200)

/-- Process-wide state read by the handlers: the city registry and the
credential, both populated at startup. -/
structure ProcState where
  cities : List (String × String)
  apiKey : Option String

/-- One request-handling step over process state. The body of `get_weather`
contains no assignment to `CITIES` or `API_KEY`, so the post-state is the
pre-state. -/
def handle_weather (st : ProcState) (up : UpstreamResult) (city : String) :
    Outcome × ProcState :=
  (get_weather_with st.cities st.apiKey up city, st)

/-- The stubbed provider payload of spec §8 / claim C2, with a configurable
description, temperature, humidity and wind speed. -/
def stubPayload (t : Rat) (hum : JVal) (d : String) (w : Rat) : JVal :=
  .obj [("main", .obj [("temp", .num t), ("humidity", hum)]),
        ("weather", .arr [.obj [("description", .str d)]]),
        ("wind", .obj [("speed", .num w)])]

/-- Observation: field `k` of a JSON object body (`none` on non-objects). -/
def jsonField (b : JVal) (k : String) : Option JVal :=
  match b with
  | .obj kvs => kvs.lookup k
  | _ => none

/-- Observation: the key list of a JSON object body, in emission order. -/
def jsonKeys : JVal → Option (List String)
  | .obj kvs => some (kvs.map Prod.fst)
  | _ => none

/-- Modelled from the spec words of claim C3, for comparison with the code:
"first letter capitalized and all remaining characters unchanged". -/
def specCapitalize (s : String) : String :=
  match s.data with
  | [] => ""
  | c :: cs => String.mk (c.toUpper :: cs)

example : pyLower "NEWYORK" = "newyork" := by decide
example : round1 (326/100) = 33/10 := by norm_num [round1, rhe]
example : round1 (1504/100) = 15 := by norm_num [round1, rhe]
example : pyCapitalize "light rain" = "Light rain" := by decide
example : pyCapitalize "light RAIN" = "Light rain" := by decide
example : CITIES.lookup (pyLower "Sydney") = some "Sydney" := by decide

/-- Splitting an `Except` bind that succeeded. -/
theorem except_bind_ok {α β : Type} {x : Except PyExc α} {f : α → Except PyExc β}
    {b : β} (h : x.bind f = .ok b) : ∃ a, x = .ok a ∧ f a = .ok b := by
  cases x <;> simp_all [Except.bind]

/-- Any successfully built `weather_data` dict has the five fixed keys, with
`city` bound to the display name passed in, `temperature`/`wind_speed`
rounded numbers, and `description` a capitalized string. -/
theorem build_weather_data_shape {n : String} {data b : JVal}
    (h : build_weather_data n data = .ok b) :
    ∃ t d hum w, b = .obj [("city", .str n),
      ("temperature", .num (round1 t)),
      ("description", .str (pyCapitalize d)),
      ("humidity", hum),
      ("wind_speed", .num (round1 w))] := by
  unfold build_weather_data at h
  simp only [bind] at h
  obtain ⟨a1, h1, h⟩ := except_bind_ok h
  obtain ⟨temp, h2, h⟩ := except_bind_ok h
  obtain ⟨t, h3, h⟩ := except_bind_ok h
  obtain ⟨a2, h4, h⟩ := except_bind_ok h
  obtain ⟨a3, h5, h⟩ := except_bind_ok h
  obtain ⟨desc, h6, h⟩ := except_bind_ok h
  obtain ⟨d, h7, h⟩ := except_bind_ok h
  obtain ⟨a4, h8, h⟩ := except_bind_ok h
  obtain ⟨hum, h9, h⟩ := except_bind_ok h
  obtain ⟨a5, h10, h⟩ := except_bind_ok h
  obtain ⟨wind, h11, h⟩ := except_bind_ok h
  obtain ⟨w, h12, h⟩ := except_bind_ok h
  exact ⟨t, d, hum, w, by injection h with h; exact h.symm⟩

/-- A 200 response from the handler can only come from the success branch:
the requested key resolves in the registry and the body is a successfully
built `weather_data` dict for that display name. -/
theorem get_weather_success_shape {cities : List (String × String)}
    {apiKey : Option String} {up : UpstreamResult} {city : String} {body : JVal}
    (h : get_weather_with cities apiKey up city = .resp body 200) :
    ∃ name, cities.lookup (pyLower city) = some name ∧
      ∃ t d hum w, body = .obj [("city", .str name),
        ("temperature", .num (round1 t)),
        ("description", .str (pyCapitalize d)),
        ("humidity", hum),
        ("wind_speed", .num (round1 w))] := by
  rw [get_weather_with] at h
  cases hc : List.lookup (pyLower city) cities with
  | none => rw [hc] at h; simp at h
  | some name =>
    rw [hc] at h
    cases hk : keyMissing apiKey with
    | true => rw [hk] at h; simp at h
    | false =>
      rw [hk] at h
      simp only [Bool.false_eq_true, if_false] at h
      cases up with
      | timeout => simp at h
      | connError => simp at h
      | response status rbody =>
        simp only [] at h
        by_cases hs : 400 ≤ status ∧ status < 600
        · rw [if_pos hs] at h; simp at h
        · rw [if_neg hs] at h
          cases rbody with
          | error u => simp at h
          | ok data =>
            simp only [] at h
            cases hb : build_weather_data name data with
            | error e =>
              rw [hb] at h
              cases he : caughtByHandler e <;> simp [he] at h
            | ok wd =>
              rw [hb] at h
              simp only [Outcome.resp.injEq, and_true] at h
              subst h
              exact ⟨name, rfl, build_weather_data_shape hb⟩


/-- C1: input validation precedes the configuration check. For every inbound
city key, credential state and upstream behaviour: an unregistered
(lowercased) key yields the Invalid-city response with status 400, and a
registered key with a missing credential yields the Configuration-error
response with status 500 (never the Invalid-city one). -/
theorem c1_validation_precedes_config (apiKey : Option String)
    (up : UpstreamResult) (city : String) :
    (CITIES.lookup (pyLower city) = none →
      get_weather apiKey up city = .resp (invalidCityBody city CITIES) 400) ∧
    (∀ name, CITIES.lookup (pyLower city) = some name → keyMissing apiKey = true →
      get_weather apiKey up city = .resp configErrorBody 500) := by
  constructor
  · intro h
    simp [get_weather, get_weather_with, h]
  · intro name h hk
    simp [get_weather, get_weather_with, h, hk]

/-- Witness for C1, at the unregistered key "gotham" and the registered key
"sydney", both with no credential configured. -/
theorem c1_witness :
    get_weather none .timeout "gotham" = .resp (invalidCityBody "gotham" CITIES) 400 ∧
    get_weather none .timeout "sydney" = .resp configErrorBody 500 :=
  ⟨(c1_validation_precedes_config none .timeout "gotham").1 (by decide),
   (c1_validation_precedes_config none .timeout "sydney").2 "Sydney" (by decide) (by decide)⟩

/-- C2: with any configured credential, the stubbed provider response
`{main: {temp: 15.04, humidity: 72}, weather: [{description: "light rain"}],
wind: {speed: 3.26}}` for "sydney" yields HTTP 200 with exactly
`{city: "Sydney", temperature: 15.0, description: "Light rain",
humidity: 72, wind_speed: 3.3}`. -/
theorem c2_sydney_stub_result (apiKey : Option String)
    (hk : keyMissing apiKey = false) :
    get_weather apiKey
      (.response 200 (.ok (stubPayload (1504/100) (.num 72) "light rain" (326/100))))
      "sydney" =
    .resp (.obj [("city", .str "Sydney"),
                 ("temperature", .num 15),
                 ("description", .str "Light rain"),
                 ("humidity", .num 72),
                 ("wind_speed", .num (33/10))]) 200 := by
  have h1 : round1 (1504/100) = 15 := by norm_num [round1, rhe]
  have h2 : round1 (326/100) = 33/10 := by norm_num [round1, rhe]
  have hc : CITIES.lookup (pyLower "sydney") = some "Sydney" := by decide
  have hd : pyCapitalize "light rain" = "Light rain" := by decide
  simp [get_weather, get_weather_with, hc, hk, build_weather_data,
    stubPayload, JVal.getKey, JVal.getIdx, JVal.asNum, JVal.asStr,
    bind, Except.bind, h1, h2, hd]
  simp [List.lookup, h1, h2, hd]

/-- Witness for C2, with the credential "k". -/
theorem c2_witness :
    keyMissing (some "k") = false ∧
    get_weather (some "k")
      (.response 200 (.ok (stubPayload (1504/100) (.num 72) "light rain" (326/100))))
      "sydney" =
    .resp (.obj [("city", .str "Sydney"),
                 ("temperature", .num 15),
                 ("description", .str "Light rain"),
                 ("humidity", .num 72),
                 ("wind_speed", .num (33/10))]) 200 :=
  ⟨by decide, c2_sydney_stub_result (some "k") (by decide)⟩

/-- C3 counterexample: the claim says the description keeps all characters
after the first unchanged ("light RAIN" would yield "Light RAIN"), but the
code applies Python `str.capitalize()`, which lowercases the rest: the
stubbed response with description "light RAIN" produces "Light rain",
differing from the claimed "Light RAIN". -/
theorem c3_counterexample :
    get_weather (some "k")
      (.response 200 (.ok (stubPayload (1504/100) (.num 72) "light RAIN" (326/100))))
      "sydney" =
    .resp (.obj [("city", .str "Sydney"),
                 ("temperature", .num 15),
                 ("description", .str "Light rain"),
                 ("humidity", .num 72),
                 ("wind_speed", .num (33/10))]) 200 ∧
    specCapitalize "light RAIN" = "Light RAIN" ∧
    ("Light rain" : String) ≠ "Light RAIN" := by
  refine ⟨?_, by decide, by decide⟩
  have h1 : round1 (1504/100) = 15 := by norm_num [round1, rhe]
  have h2 : round1 (326/100) = 33/10 := by norm_num [round1, rhe]
  have hc : CITIES.lookup (pyLower "sydney") = some "Sydney" := by decide
  have hk : keyMissing (some "k") = false := by decide
  have hd : pyCapitalize "light RAIN" = "Light rain" := by decide
  simp [get_weather, get_weather_with, hc, hk, build_weather_data,
    stubPayload, JVal.getKey, JVal.getIdx, JVal.asNum, JVal.asStr,
    bind, Except.bind, h1, h2, hd]
  simp [List.lookup, h1, h2, hd]

/-- C3 amended: for every successful provider response, the description field
is the first condition entry's description with its first character
uppercased and ALL REMAINING CHARACTERS LOWERCASED (Python
`str.capitalize()`), e.g. "light RAIN" yields "Light rain". -/
theorem c3_description_capitalized :
    (∀ (apiKey : Option String), keyMissing apiKey = false →
      ∀ (t w : Rat) (hum : JVal) (d : String),
        get_weather apiKey (.response 200 (.ok (stubPayload t hum d w))) "sydney" =
        .resp (.obj [("city", .str "Sydney"),
                     ("temperature", .num (round1 t)),
                     ("description", .str (pyCapitalize d)),
                     ("humidity", hum),
                     ("wind_speed", .num (round1 w))]) 200) ∧
    (∀ (c : Char) (cs : List Char),
      pyCapitalize (String.mk (c :: cs)) = String.mk (c.toUpper :: cs.map Char.toLower)) := by
  constructor
  · intro apiKey hk t w hum d
    have hc : CITIES.lookup (pyLower "sydney") = some "Sydney" := by decide
    simp [get_weather, get_weather_with, hc, hk, build_weather_data,
      stubPayload, JVal.getKey, JVal.getIdx, JVal.asNum, JVal.asStr,
      bind, Except.bind]
    simp [List.lookup]
  · intro c cs
    simp [pyCapitalize]

/-- Witness for the amended C3, with credential "k" and description
"light RAIN". -/
theorem c3_amended_witness :
    keyMissing (some "k") = false ∧
    get_weather (some "k")
      (.response 200 (.ok (stubPayload (1504/100) (.num 72) "light RAIN" (326/100))))
      "sydney" =
    .resp (.obj [("city", .str "Sydney"),
                 ("temperature", .num (round1 (1504/100))),
                 ("description", .str (pyCapitalize "light RAIN")),
                 ("humidity", .num 72),
                 ("wind_speed", .num (round1 (326/100)))]) 200 :=
  ⟨by decide, c3_description_capitalized.1 (some "k") (by decide) (1504/100) (326/100) (.num 72) "light RAIN"⟩

/-- C4: a provider response missing a dict field (here `wind.speed`) raises
`KeyError`, which the handler catches and maps to Data Error / 502 — but a
response whose `weather` list is EMPTY raises `IndexError` at
`data['weather'][0]`, which `except (KeyError, ValueError)` does not catch:
the request escapes as an unhandled exception instead of the claimed
Data Error / 502 response. -/
theorem c4_empty_weather_list_unhandled :
    get_weather (some "k")
      (.response 200 (.ok (.obj
        [("main", .obj [("temp", .num (1504/100)), ("humidity", .num 72)]),
         ("weather", .arr [.obj [("description", .str "light rain")]]),
         ("wind", .obj [])])))
      "sydney" = .resp dataErrorBody 502 ∧
    get_weather (some "k")
      (.response 200 (.ok (.obj
        [("main", .obj [("temp", .num (1504/100)), ("humidity", .num 72)]),
         ("weather", .arr []),
         ("wind", .obj [("speed", .num (326/100))])])))
      "sydney" = .unhandled .indexError ∧
    caughtByHandler .indexError = false := by
  have hc : CITIES.lookup (pyLower "sydney") = some "Sydney" := by decide
  have hk : keyMissing (some "k") = false := by decide
  have hd : pyCapitalize "light rain" = "Light rain" := by decide
  refine ⟨?_, ?_, by decide⟩ <;>
    · simp [get_weather, get_weather_with, hc, hk, build_weather_data,
        JVal.getKey, JVal.getIdx, JVal.asNum, JVal.asStr,
        bind, Except.bind, hd, caughtByHandler]
      simp [List.lookup, hd, caughtByHandler]

/-- C5: for every registered city key with a credential configured, a
provider timeout yields the Timeout response with status 504; a provider
HTTP response with an error status (4xx/5xx, the statuses
`raise_for_status` raises on) yields the API-Error response with status
502; and a connect/transport failure yields the Network-Error response
with status 502. -/
theorem c5_upstream_failure_mapping (apiKey : Option String)
    (city name : String)
    (hc : CITIES.lookup (pyLower city) = some name)
    (hk : keyMissing apiKey = false) :
    get_weather apiKey .timeout city = .resp timeoutBody 504 ∧
    (∀ (s : Nat) (b : Except Unit JVal), 400 ≤ s → s < 600 →
      get_weather apiKey (.response s b) city = .resp (apiErrorBody s) 502) ∧
    get_weather apiKey .connError city = .resp networkErrorBody 502 := by
  refine ⟨?_, ?_, ?_⟩
  · simp [get_weather, get_weather_with, hc, hk]
  · intro s b h4 h6
    simp [get_weather, get_weather_with, hc, hk]
    exact fun h => absurd (h h4) (by omega)
  · simp [get_weather, get_weather_with, hc, hk]

/-- Witness for C5: city "sydney", credential "k", provider status 401. -/
theorem c5_witness :
    get_weather (some "k") .timeout "sydney" = .resp timeoutBody 504 ∧
    get_weather (some "k") (.response 401 (.error ())) "sydney" = .resp (apiErrorBody 401) 502 ∧
    get_weather (some "k") .connError "sydney" = .resp networkErrorBody 502 := by
  obtain ⟨h1, h2, h3⟩ := c5_upstream_failure_mapping (some "k") "sydney" "Sydney"
    (by decide) (by decide)
  exact ⟨h1, h2 401 (.error ()) (by norm_num) (by norm_num), h3⟩

/-- C6: the handler resolves city keys case-insensitively — its result
depends only on the lowercased key whenever that key is registered — and
the registry maps newyork to "New York", sydney to "Sydney", capetown to
"Cape Town", bangkok to "Bangkok"; all casing variants ("NewYork",
"NEWYORK", "newyork") lower to the same key. -/
theorem c6_case_insensitive_resolution :
    (∀ (apiKey : Option String) (up : UpstreamResult) (c₁ c₂ : String),
      pyLower c₁ = pyLower c₂ → (CITIES.lookup (pyLower c₁)).isSome →
      get_weather apiKey up c₁ = get_weather apiKey up c₂) ∧
    CITIES.lookup "newyork" = some "New York" ∧
    CITIES.lookup "sydney" = some "Sydney" ∧
    CITIES.lookup "capetown" = some "Cape Town" ∧
    CITIES.lookup "bangkok" = some "Bangkok" ∧
    pyLower "NewYork" = "newyork" ∧ pyLower "NEWYORK" = "newyork" ∧
    pyLower "newyork" = "newyork" := by
  refine ⟨?_, by decide, by decide, by decide, by decide, by decide, by decide, by decide⟩
  intro apiKey up c₁ c₂ h hs
  obtain ⟨name, hn⟩ := Option.isSome_iff_exists.mp hs
  have hn₂ : CITIES.lookup (pyLower c₂) = some name := h ▸ hn
  simp [get_weather, get_weather_with, hn, hn₂]

/-- Witness for C6: "NEWYORK" and "newyork" are handled identically. -/
theorem c6_witness :
    get_weather none .timeout "NEWYORK" = get_weather none .timeout "newyork" :=
  c6_case_insensitive_resolution.1 none .timeout "NEWYORK" "newyork"
    (by decide) (by decide)

/-- C7: the health handler takes no inputs (in particular neither the
credential nor the upstream behaviour) and returns status 200 with a fixed
descriptor: status "running", the service name, and exactly the four
lower-cased registry keys, not the display names. -/
theorem c7_health_descriptor :
    home = (.obj [("status", .str "running"),
                  ("service", .str "Weather Backend API"),
                  ("available_cities",
                    .arr [.str "newyork", .str "sydney", .str "capetown", .str "bangkok"])],
            200) :=
  rfl

/-- C8: every 200 body of the weather handler carries as its `city` field
the display name found in the City Registry for the lowercased requested
key — for every upstream behaviour, so never a provider-echoed city. -/
theorem c8_city_from_registry (apiKey : Option String) (up : UpstreamResult)
    (city : String) (body : JVal)
    (h : get_weather apiKey up city = .resp body 200) :
    ∃ name, CITIES.lookup (pyLower city) = some name ∧
      jsonField body "city" = some (.str name) := by
  obtain ⟨name, hn, t, d, hum, w, hb⟩ := get_weather_success_shape h
  exact ⟨name, hn, by simp [hb, jsonField, List.lookup]⟩

/-- Witness for C8: the C2 stub scenario, whose provider body contains no
city echo at all, yields `city` = "Sydney" from the registry. -/
theorem c8_witness :
    ∃ name, CITIES.lookup (pyLower "sydney") = some name ∧
      jsonField (.obj [("city", .str "Sydney"),
                       ("temperature", .num 15),
                       ("description", .str "Light rain"),
                       ("humidity", .num 72),
                       ("wind_speed", .num (33/10))]) "city" = some (.str name) :=
  c8_city_from_registry (some "k")
    (.response 200 (.ok (stubPayload (1504/100) (.num 72) "light rain" (326/100))))
    "sydney" _ (c2_sydney_stub_result (some "k") (by decide))

/-- C9: handling a request writes neither the City Registry nor the
credential — the post-state equals the pre-state (the handler body contains
no assignment to `CITIES` or `API_KEY`), and a repeated identical call
against the resulting state returns the same outcome. -/
theorem c9_no_state_mutation (st : ProcState) (up : UpstreamResult) (city : String) :
    (handle_weather st up city).2 = st ∧
    (handle_weather st up city).2.cities = st.cities ∧
    (handle_weather st up city).2.apiKey = st.apiKey ∧
    (handle_weather (handle_weather st up city).2 up city).1 =
      (handle_weather st up city).1 :=
  ⟨rfl, rfl, rfl, rfl⟩

/-- C10: every 200 body of the weather handler is a JSON object with
exactly the keys `city`, `temperature`, `description`, `humidity`,
`wind_speed` (snake_case), in that order, and no others. -/
theorem c10_success_body_keys (apiKey : Option String) (up : UpstreamResult)
    (city : String) (body : JVal)
    (h : get_weather apiKey up city = .resp body 200) :
    jsonKeys body = some ["city", "temperature", "description", "humidity", "wind_speed"] := by
  obtain ⟨name, _, t, d, hum, w, hb⟩ := get_weather_success_shape h
  simp [hb, jsonKeys]

/-- Witness for C10: the C2 stub scenario. -/
theorem c10_witness :
    jsonKeys (.obj [("city", .str "Sydney"),
                    ("temperature", .num 15),
                    ("description", .str "Light rain"),
                    ("humidity", .num 72),
                    ("wind_speed", .num (33/10))]) =
      some ["city", "temperature", "description", "humidity", "wind_speed"] :=
  c10_success_body_keys (some "k")
    (.response 200 (.ok (stubPayload (1504/100) (.num 72) "light rain" (326/100))))
    "sydney" _ (c2_sydney_stub_result (some "k") (by decide))
